import Mathlib

/-!
Shallow embedding of the QuantFlow trading core: the `RiskManager`
(src/app/services/risk_manager.py) and the `TradingEngine`
(src/app/services/trading_engine.py), together with the configuration
defaults of src/app/core/config.py.

Python floats are modelled by exact rationals; Python `None`-able fields by
`Option`; Python dicts keyed by symbol strings by association lists in
insertion order.  `math.sqrt` (an irrational operation) is abstracted by an
explicit function parameter `sqrtFn`; every theorem below holds for an
arbitrary such function, which in particular covers the real square root.
-/

/-- Subset of the pydantic `Settings` of src/app/core/config.py actually read
by the risk manager and trading engine. -/
structure Settings where
  DEFAULT_CAPITAL : ℚ
  MIN_POSITION_UNITS : ℚ
  MIN_POSITION_NOTIONAL : ℚ
  MAX_SIGNALS_PER_CYCLE : ℕ
  MIN_SIGNAL_CONFIDENCE : ℚ
  conflict_strength_ratio : ℚ
  SIGNAL_COOLDOWN_SECONDS : ℚ
  MIN_HOLD_SECONDS : ℚ
  MAX_TRADES_PER_HOUR : ℕ
  ADVANCED_ENTRY_FILTER_ENABLED : Bool
  ENTRY_FILTER_MIN_HISTORY : ℕ
  ENTRY_FILTER_VOL_WINDOW : ℕ
  ENTRY_FILTER_MIN_EXPECTED_EDGE : ℚ
  ENTRY_FILTER_FEE_BPS_PER_SIDE : ℚ
  ENTRY_FILTER_SLIPPAGE_BPS : ℚ
  ENTRY_FILTER_VOL_MULTIPLIER : ℚ
  ENTRY_FILTER_MIN_RR : ℚ
  ENTRY_FILTER_TREND_Z_MIN : ℚ
  TAKE_PROFIT_PERCENTAGE : ℚ
  STOP_LOSS_PERCENTAGE : ℚ
  deriving Repr

/-- Default values from src/app/core/config.py (the conflict-ratio field of
the source is written in lower case here). -/
def defaultSettings : Settings where
  DEFAULT_CAPITAL := 10000
  MIN_POSITION_UNITS := 5 / 10000
  MIN_POSITION_NOTIONAL := 10
  MAX_SIGNALS_PER_CYCLE := 3
  MIN_SIGNAL_CONFIDENCE := 55 / 100
  conflict_strength_ratio := 135 / 100
  SIGNAL_COOLDOWN_SECONDS := 900
  MIN_HOLD_SECONDS := 900
  MAX_TRADES_PER_HOUR := 200
  ADVANCED_ENTRY_FILTER_ENABLED := true
  ENTRY_FILTER_MIN_HISTORY := 8
  ENTRY_FILTER_VOL_WINDOW := 20
  ENTRY_FILTER_MIN_EXPECTED_EDGE := 4 / 1000
  ENTRY_FILTER_FEE_BPS_PER_SIDE := 10
  ENTRY_FILTER_SLIPPAGE_BPS := 6
  ENTRY_FILTER_VOL_MULTIPLIER := 75 / 100
  ENTRY_FILTER_MIN_RR := 12 / 10
  ENTRY_FILTER_TREND_Z_MIN := 15 / 100
  TAKE_PROFIT_PERCENTAGE := 15 / 100
  STOP_LOSS_PERCENTAGE := 5 / 100

/-- The `Signal` / `TradingSignal` dataclass (identical shape in
src/app/strategies/base_strategy.py and src/app/services/trading_engine.py).
The open `metadata` dict is modelled by the two keys the core reads:
`closes_by_symbol` and `volume`. -/
structure TradingSignal where
  symbol : String
  action : String
  confidence : ℚ
  price : ℚ
  quantity : Option ℚ := none
  stop_loss : Option ℚ := none
  take_profit : Option ℚ := none
  strategy : String := ""
  closes_by_symbol : List (String × List ℚ) := []
  volume : Option ℚ := none
  deriving Repr, DecidableEq

/-- One entry of `portfolio_manager.positions` (a per-symbol dict with keys
quantity, current_price, opened_at, stop_loss, take_profit). -/
structure Position where
  quantity : ℚ
  current_price : ℚ := 0
  opened_at : Option ℚ := none
  stop_loss : Option ℚ := none
  take_profit : Option ℚ := none
  deriving Repr, DecidableEq

/-- The slice of the external `PortfolioManager` the risk manager reads:
`total_value`, the `positions` dict, and `portfolio_id` (0 models the Python
falsy `None`/0 id). -/
structure PortfolioManager where
  total_value : ℚ
  positions : List (String × Position) := []
  portfolio_id : ℕ := 0
  deriving Repr

/-- The `RiskLimits` dataclass of src/app/services/risk_manager.py. -/
structure RiskLimits where
  max_position_size : ℚ := 1 / 10
  max_portfolio_risk : ℚ := 2 / 100
  max_daily_loss : ℚ := 5 / 100
  max_drawdown : ℚ := 15 / 100
  max_correlation : ℚ := 7 / 10
  max_sector_exposure : ℚ := 3 / 10
  max_daily_trades : ℕ := 10
  min_volume : ℚ := 100000
  deriving Repr

/-- Mutable state of `RiskManager`; `last_reset_date` is a UTC date ordinal. -/
structure RiskManager where
  risk_limits : RiskLimits
  daily_trades : ℕ := 0
  daily_pnl : ℚ := 0
  last_reset_date : ℤ := 0
  peak_portfolio_value : ℚ := 0
  last_drawdown : ℚ := 0
  portfolio_manager : Option PortfolioManager := none
  deriving Repr

/-- Association-list lookup in insertion order, modelling Python dict access. -/
def alist_find {α : Type} (k : String) : List (String × α) → Option α
  | [] => none
  | (k2, v) :: rest => if k2 = k then some v else alist_find k rest

/-- RiskManager._get_portfolio_value. -/
def get_portfolio_value (cfg : Settings) (rm : RiskManager) : ℚ :=
  match rm.portfolio_manager with
  | some pm => max pm.total_value 0
  | none => cfg.DEFAULT_CAPITAL

/-- RiskManager._to_returns: period returns of a value series, skipping pairs
whose predecessor is non-positive (the identical loop also appears inline in
TradingEngine._return_stats and in calculate_var). -/
def to_returns : List ℚ → List ℚ
  | a :: b :: rest => (if 0 < a then [(b - a) / a] else []) ++ to_returns (b :: rest)
  | _ => []

/-- Held quantity read by the SELL branch of calculate_position_size:
present only when a portfolio manager exists and the symbol is in its
positions dict. -/
def sell_side_holding (rm : RiskManager) (symbol : String) : Option ℚ :=
  match rm.portfolio_manager with
  | some pm => (alist_find symbol pm.positions).map Position.quantity
  | none => none

/-- RiskManager.calculate_position_size. -/
def calculate_position_size (cfg : Settings) (rm : RiskManager)
    (s : TradingSignal) : ℚ :=
  if s.action = "SELL" then
    match sell_side_holding rm s.symbol with
    | some q => max q 0
    | none => 0
  else
    let pv := get_portfolio_value cfg rm
    if pv ≤ 0 then 0
    else
      match s.stop_loss with
      | none => 0
      | some sl =>
        let risk_per_share := |s.price - sl|
        if risk_per_share ≤ 0 then 0
        else
          let max_risk_amount := pv * rm.risk_limits.max_portfolio_risk
          let position_size := max_risk_amount / risk_per_share
          let max_position_value := pv * rm.risk_limits.max_position_size
          let max_units_by_value :=
            if 0 < s.price then max_position_value / s.price else 0
          let final1 := min position_size max_units_by_value
          if final1 ≤ 0 then 0
          else
            let final2 := max final1 cfg.MIN_POSITION_UNITS
            if 0 < s.price ∧ final2 * s.price < cfg.MIN_POSITION_NOTIONAL then
              cfg.MIN_POSITION_NOTIONAL / s.price
            else final2

/-- RiskManager._reset_daily_counters_if_needed. -/
def reset_daily_counters_if_needed (rm : RiskManager) (today : ℤ) :
    RiskManager :=
  if today ≠ rm.last_reset_date then
    { rm with daily_trades := 0, daily_pnl := 0, last_reset_date := today }
  else rm

/-- RiskManager._current_drawdown_ratio. -/
def current_drawdown_ratio (rm : RiskManager) (portfolio_value : ℚ) : ℚ :=
  if portfolio_value ≤ 0 then 1
  else if rm.peak_portfolio_value ≤ 0 then 0
  else
    max ((rm.peak_portfolio_value - portfolio_value) /
      rm.peak_portfolio_value) 0

/-- RiskManager.check_risk_limits: returns the post-call state together with
the (ok, reason) pair. -/
def check_risk_limits (cfg : Settings) (rm : RiskManager) (today : ℤ) :
    RiskManager × Bool × String :=
  let rm1 := reset_daily_counters_if_needed rm today
  let pv := get_portfolio_value cfg rm1
  if pv ≤ 0 then (rm1, false, "portfolio value is non-positive")
  else
    let rm2 := { rm1 with
      peak_portfolio_value := max rm1.peak_portfolio_value pv }
    let max_daily_loss_amount := pv * rm2.risk_limits.max_daily_loss
    if rm2.daily_pnl ≤ -max_daily_loss_amount then
      (rm2, false, "daily loss limit exceeded")
    else
      let dd := current_drawdown_ratio rm2 pv
      let rm3 := { rm2 with last_drawdown := dd }
      if rm3.risk_limits.max_drawdown < dd then
        (rm3, false, "max drawdown exceeded")
      else (rm3, true, "")

/-- TradingEngine._expected_reward_ratio. -/
def expected_reward_ratio (s : TradingSignal) : ℚ :=
  if s.price ≤ 0 then 0
  else
    match s.take_profit with
    | none => 0
    | some tp => |tp - s.price| / s.price

/-- TradingEngine._risk_ratio. -/
def risk_ratio (s : TradingSignal) : ℚ :=
  if s.price ≤ 0 then 0
  else
    match s.stop_loss with
    | none => 0
    | some sl => |s.price - sl| / s.price

/-- TradingEngine._extract_closes: positive closes for the signal symbol from
the embedded closes_by_symbol metadata. -/
def extract_closes (s : TradingSignal) : List ℚ :=
  ((alist_find s.symbol s.closes_by_symbol).getD []).filter
    (fun c => decide (0 < c))

/-- Result dict of TradingEngine._return_stats. -/
structure ReturnStats where
  mean : ℚ
  std : ℚ
  count : ℚ
  deriving Repr

/-- TradingEngine._return_stats; `sqrtFn` stands for math.sqrt. -/
def return_stats (cfg : Settings) (sqrtFn : ℚ → ℚ) (closes : List ℚ) :
    Option ReturnStats :=
  if closes.length < 3 then none
  else
    let window := max 2 (min cfg.ENTRY_FILTER_VOL_WINDOW (closes.length - 1))
    let sample := closes.drop (closes.length - (window + 1))
    let returns := to_returns sample
    if returns.length < 2 then none
    else
      let mean_return := returns.sum / (returns.length : ℚ)
      let variance :=
        ((returns.map (fun v => (v - mean_return) ^ 2)).sum) /
          ((returns.length : ℚ) - 1)
      some ⟨mean_return, sqrtFn (max variance 0), (returns.length : ℚ)⟩

/-- Fee-plus-slippage budget of TradingEngine._passes_edge_filter. -/
def fee_slippage_budget (cfg : Settings) : ℚ :=
  (cfg.ENTRY_FILTER_FEE_BPS_PER_SIDE * 2 + cfg.ENTRY_FILTER_SLIPPAGE_BPS) /
    10000

/-- Volatility used by the edge filter: the std of return_stats on the
embedded history, 0 when no stats are available. -/
def edge_volatility (cfg : Settings) (sqrtFn : ℚ → ℚ) (s : TradingSignal) :
    ℚ :=
  match return_stats cfg sqrtFn (extract_closes s) with
  | some st => st.std
  | none => 0

/-- Adaptive minimum expected reward of TradingEngine._passes_edge_filter. -/
def edge_min_reward (cfg : Settings) (sqrtFn : ℚ → ℚ) (s : TradingSignal) :
    ℚ :=
  max cfg.ENTRY_FILTER_MIN_EXPECTED_EDGE
    (fee_slippage_budget cfg +
      edge_volatility cfg sqrtFn s * cfg.ENTRY_FILTER_VOL_MULTIPLIER)

/-- TradingEngine._passes_edge_filter. -/
def passes_edge_filter (cfg : Settings) (sqrtFn : ℚ → ℚ)
    (s : TradingSignal) : Bool :=
  if s.strategy = "risk_exit" then true
  else if s.price ≤ 0 then false
  else
    let er := expected_reward_ratio s
    let rr := risk_ratio s
    if er ≤ 0 ∨ rr ≤ 0 then false
    else if cfg.ADVANCED_ENTRY_FILTER_ENABLED = false then
      if er < cfg.ENTRY_FILTER_MIN_EXPECTED_EDGE then false
      else if er / rr < cfg.ENTRY_FILTER_MIN_RR then false
      else true
    else if er < edge_min_reward cfg sqrtFn s then false
    else
      let volatility := edge_volatility cfg sqrtFn s
      let rr_ratio := er / rr
      let rr_floor0 :=
        max cfg.ENTRY_FILTER_MIN_RR (1 + min 1 (volatility * 8))
      let configured_rr :=
        cfg.TAKE_PROFIT_PERCENTAGE /
          max cfg.STOP_LOSS_PERCENTAGE (1 / 1000000000)
      let rr_floor :=
        if configured_rr < rr_floor0 then max (configured_rr * (9 / 10)) (1 / 20)
        else rr_floor0
      if rr_ratio < rr_floor then false
      else
        match return_stats cfg sqrtFn (extract_closes s) with
        | some st =>
          if (cfg.ENTRY_FILTER_MIN_HISTORY : ℚ) ≤ st.count then
            let trend_z := st.mean / max st.std (1 / 1000000000) * sqrtFn st.count
            if s.action = "BUY" ∧ trend_z < cfg.ENTRY_FILTER_TREND_Z_MIN then
              false
            else if s.action = "SELL" ∧ -cfg.ENTRY_FILTER_TREND_Z_MIN < trend_z
            then false
            else true
          else true
        | none => true

/-- TradingEngine._passes_hourly_trade_limit: purges timestamps older than 60
minutes from the front of the deque and accepts the signal while the window
holds fewer than max(MAX_TRADES_PER_HOUR, 1) entries; returns the purged
deque alongside the verdict. Time is in seconds. -/
def passes_hourly_trade_limit (cfg : Settings) (now : ℚ)
    (trade_timestamps : List ℚ) (s : TradingSignal) : Bool × List ℚ :=
  if s.strategy = "risk_exit" then (true, trade_timestamps)
  else
    let cutoff := now - 3600
    let ts := trade_timestamps.dropWhile (fun t => decide (t < cutoff))
    (decide (ts.length < max cfg.MAX_TRADES_PER_HOUR 1), ts)

/-- Performance metrics of a strategy, as read by
TradingEngine._strategy_weight. -/
structure StrategyPerf where
  total_trades : ℕ
  win_rate : ℚ
  total_pnl : ℚ
  deriving Repr

/-- The per-cycle inputs of signal consolidation: settings, the strategies
dict (performance metrics), last_trade_at, the positions dict and the
current time in seconds. -/
structure EngineCtx where
  cfg : Settings
  strategies : List (String × StrategyPerf)
  last_trade_at : List (String × ℚ)
  positions : List (String × Position)
  now : ℚ

/-- TradingEngine._strategy_weight. -/
def strategy_weight (ctx : EngineCtx) (strategy_name : String) : ℚ :=
  match alist_find strategy_name ctx.strategies with
  | none => 1
  | some perf =>
    if perf.total_trades < 5 then 1
    else
      let base := 7 / 10 + perf.win_rate * (6 / 10)
      let pnl_adj : ℚ := if 0 < perf.total_pnl then 15 / 100 else -(15 / 100)
      min (max (base + pnl_adj) (1 / 2)) (3 / 2)

/-- TradingEngine._passes_cooldown. -/
def passes_cooldown (ctx : EngineCtx) (symbol : String)
    (strategy_name : String) : Bool :=
  if strategy_name = "risk_exit" then true
  else
    match alist_find symbol ctx.last_trade_at with
    | none => true
    | some t => decide (ctx.cfg.SIGNAL_COOLDOWN_SECONDS ≤ ctx.now - t)

/-- TradingEngine._passes_position_rules. -/
def passes_position_rules (ctx : EngineCtx) (s : TradingSignal) : Bool :=
  if s.action = "SELL" then
    match alist_find s.symbol ctx.positions with
    | none => false
    | some pos =>
      if pos.quantity ≤ 0 then false
      else if s.strategy = "risk_exit" then true
      else
        match pos.opened_at with
        | none => true
        | some t => decide (ctx.cfg.MIN_HOLD_SECONDS ≤ ctx.now - t)
  else if s.action = "BUY" then
    match alist_find s.symbol ctx.positions with
    | none => true
    | some pos => decide (pos.quantity ≤ 0)
  else true

/-- TradingEngine._signal_priority. -/
def signal_priority (ctx : EngineCtx) (s : TradingSignal) : ℚ :=
  let er := expected_reward_ratio s
  let rr := risk_ratio s
  let rr_ratio := if 0 < rr then er / rr else 0
  let bounded_rr := min (max rr_ratio (1 / 2)) 3
  s.confidence * strategy_weight ctx s.strategy * (1 + er) * bounded_rr

/-- One per-symbol accumulator entry of TradingEngine._consolidate_signals. -/
structure SideEntry where
  buy_strength : ℚ := 0
  sell_strength : ℚ := 0
  best_buy : Option TradingSignal := none
  best_sell : Option TradingSignal := none
  deriving Repr

/-- Folding one signal into its per-symbol entry (the body of the first loop
of _consolidate_signals). -/
def apply_signal (ctx : EngineCtx) (s : TradingSignal) (e : SideEntry) :
    SideEntry :=
  let weighted_conf := s.confidence * strategy_weight ctx s.strategy
  if s.action = "BUY" then
    { e with
      buy_strength := e.buy_strength + weighted_conf,
      best_buy := some (match e.best_buy with
        | none => s
        | some b => if b.confidence < s.confidence then s else b) }
  else
    { e with
      sell_strength := e.sell_strength + weighted_conf,
      best_sell := some (match e.best_sell with
        | none => s
        | some b => if b.confidence < s.confidence then s else b) }

/-- dict.setdefault followed by mutation, in insertion order. -/
def upsert_entry (ctx : EngineCtx) (s : TradingSignal) :
    List (String × SideEntry) → List (String × SideEntry)
  | [] => [(s.symbol, apply_signal ctx s {})]
  | (k, e) :: rest =>
    if k = s.symbol then (k, apply_signal ctx s e) :: rest
    else (k, e) :: upsert_entry ctx s rest

/-- The first loop of TradingEngine._consolidate_signals: group BUY/SELL
signals that survive the cooldown check into per-symbol entries. -/
def by_symbol_build (ctx : EngineCtx) :
    List TradingSignal → List (String × SideEntry) →
      List (String × SideEntry)
  | [], acc => acc
  | s :: rest, acc =>
    if (s.action = "BUY" ∨ s.action = "SELL") ∧
        passes_cooldown ctx s.symbol s.strategy = true then
      by_symbol_build ctx rest (upsert_entry ctx s acc)
    else by_symbol_build ctx rest acc

/-- Conflict resolution of _consolidate_signals for one symbol entry. -/
def resolve_entry (cfg : Settings) (e : SideEntry) : Option TradingSignal :=
  if 0 < e.buy_strength ∧ 0 < e.sell_strength then
    if e.sell_strength * cfg.conflict_strength_ratio ≤ e.buy_strength then
      e.best_buy
    else if e.buy_strength * cfg.conflict_strength_ratio ≤ e.sell_strength
    then e.best_sell
    else none
  else if 0 < e.buy_strength then e.best_buy
  else if 0 < e.sell_strength then e.best_sell
  else none

/-- The per-symbol tail of the second loop of _consolidate_signals:
resolution followed by the minimum-confidence and position-state gates. -/
def select_for_symbol (ctx : EngineCtx) (e : SideEntry) :
    Option TradingSignal :=
  match resolve_entry ctx.cfg e with
  | none => none
  | some sel =>
    if sel.confidence < ctx.cfg.MIN_SIGNAL_CONFIDENCE then none
    else if passes_position_rules ctx sel = false then none
    else some sel

/-- TradingEngine._consolidate_signals: group, resolve, gate, rank by
priority (descending) and truncate to max(MAX_SIGNALS_PER_CYCLE, 1). -/
def consolidate_signals (ctx : EngineCtx) (signals : List TradingSignal) :
    List TradingSignal :=
  let by_symbol := by_symbol_build ctx signals []
  let consolidated := by_symbol.filterMap (fun p => select_for_symbol ctx p.2)
  (consolidated.mergeSort
    (fun a b => decide (signal_priority ctx b ≤ signal_priority ctx a))).take
    (max ctx.cfg.MAX_SIGNALS_PER_CYCLE 1)

/-- The TradingState enum of src/app/services/trading_engine.py. -/
inductive TradingState where
  | stopped
  | starting
  | running
  | stopping
  | error
  deriving DecidableEq, Repr

/-- The state transitions the spec allows: the start/stop chain, the direct
risk halt out of RUNNING, and ERROR from any state on unrecoverable
failure. -/
inductive EngineEdge : TradingState → TradingState → Prop where
  | start_begin : EngineEdge .stopped .starting
  | start_done : EngineEdge .starting .running
  | stop_begin : EngineEdge .running .stopping
  | stop_done : EngineEdge .stopping .stopped
  | risk_halt : EngineEdge .running .stopped
  | fail (s : TradingState) : EngineEdge s .error

/-- Outcome of one call to start() or stop(): success, an exception before
the terminal state assignment of the try block, or an exception after it
(e.g. a failing notification call). -/
inductive OpResult where
  | success
  | fail_early
  | fail_late
  deriving DecidableEq, Repr

/-- Sequence of states TradingEngine.start assigns, in order, from a given
source state: a guarded no-op outside STOPPED, otherwise STARTING followed by
RUNNING, with ERROR appended where the except branch fires. -/
def start_states (s : TradingState) (r : OpResult) : List TradingState :=
  if s ≠ .stopped then []
  else
    match r with
    | .success => [.starting, .running]
    | .fail_early => [.starting, .error]
    | .fail_late => [.starting, .running, .error]

/-- Sequence of states TradingEngine.stop assigns, in order: a guarded no-op
outside RUNNING, otherwise STOPPING followed by STOPPED, with ERROR where the
except branch fires. -/
def stop_states (s : TradingState) (r : OpResult) : List TradingState :=
  if s ≠ .running then []
  else
    match r with
    | .success => [.stopping, .stopped]
    | .fail_early => [.stopping, .error]
    | .fail_late => [.stopping, .stopped, .error]

/-- State assignment of the risk-halt branch of TradingEngine._trading_loop:
the loop body only runs while the engine is RUNNING and moves it straight to
STOPPED. -/
def risk_halt_states (s : TradingState) : List TradingState :=
  if s = .running then [.stopped] else []

/-- RiskManager._check_daily_trade_limit. -/
def check_daily_trade_limit (rm : RiskManager) (today : ℤ) : Bool :=
  let rm1 := reset_daily_counters_if_needed rm today
  decide (rm1.daily_trades < rm1.risk_limits.max_daily_trades)

/-- RiskManager._check_daily_loss_limit. -/
def check_daily_loss_limit (cfg : Settings) (rm : RiskManager) (today : ℤ) :
    Bool :=
  let rm1 := reset_daily_counters_if_needed rm today
  decide
    (-(get_portfolio_value cfg rm1 * rm1.risk_limits.max_daily_loss) <
      rm1.daily_pnl)

/-- Whether the Pearson correlation of two aligned return series exceeds c in
absolute value, written with the squared comparison so it stays inside ℚ
(exact for real arithmetic); a zero variance on either side makes
np.corrcoef return NaN, which the source skips, hence false here. -/
def corr_exceeds (xs ys : List ℚ) (c : ℚ) : Bool :=
  let mx : ℚ := xs.sum / (xs.length : ℚ)
  let my : ℚ := ys.sum / (ys.length : ℚ)
  let vx : ℚ := (xs.map (fun x => (x - mx) ^ 2)).sum
  let vy : ℚ := (ys.map (fun y => (y - my) ^ 2)).sum
  let cov : ℚ := ((xs.zip ys).map (fun p => (p.1 - mx) * (p.2 - my))).sum
  if vx = 0 ∨ vy = 0 then false
  else if c < 0 then true
  else decide ((c ^ 2 * (vx * vy) : ℚ) < (cov ^ 2 : ℚ))

/-- RiskManager._check_correlation_limit (its verdict; the telemetry map
position_correlations it also refreshes is not tracked). -/
def check_correlation_limit (rm : RiskManager) (s : TradingSignal) : Bool :=
  if s.action = "SELL" then true
  else
    let candidate_closes := (alist_find s.symbol s.closes_by_symbol).getD []
    let open_symbols :=
      match rm.portfolio_manager with
      | some pm =>
        (pm.positions.filter (fun p => decide (0 < p.2.quantity))).map
          Prod.fst
      | none => []
    if candidate_closes = [] ∨ open_symbols = [] then true
    else
      let candidate_returns := to_returns candidate_closes
      if candidate_returns.length < 3 then true
      else
        open_symbols.all (fun sym =>
          match alist_find sym s.closes_by_symbol with
          | none => true
          | some closes =>
            if closes = [] then true
            else
              let other_returns := to_returns closes
              let m := min candidate_returns.length other_returns.length
              if m < 3 then true
              else
                !(corr_exceeds
                  (candidate_returns.drop (candidate_returns.length - m))
                  (other_returns.drop (other_returns.length - m))
                  rm.risk_limits.max_correlation))

/-- RiskManager._check_portfolio_risk_limit. -/
def check_portfolio_risk_limit (cfg : Settings) (rm : RiskManager)
    (s : TradingSignal) : Bool :=
  if s.action = "SELL" then true
  else
    match s.stop_loss with
    | none => false
    | some sl =>
      let risk_per_share := |s.price - sl|
      let position_size := calculate_position_size cfg rm s
      let total_risk := risk_per_share * position_size
      let pv := get_portfolio_value cfg rm
      if pv ≤ 0 then false
      else decide (total_risk / pv ≤ rm.risk_limits.max_portfolio_risk)

/-- RiskManager._compute_symbol_exposures. -/
def compute_symbol_exposures (rm : RiskManager) (portfolio_value : ℚ) :
    List (String × ℚ) :=
  match rm.portfolio_manager with
  | none => []
  | some pm =>
    if portfolio_value ≤ 0 then []
    else
      (pm.positions.filter
        (fun p => decide (0 < p.2.quantity) && decide (0 < p.2.current_price))).map
        (fun p => (p.1, p.2.quantity * p.2.current_price / portfolio_value))

/-- dict assignment (update or append) on an association list. -/
def alist_set {α : Type} (k : String) (v : α) :
    List (String × α) → List (String × α)
  | [] => [(k, v)]
  | (k2, v2) :: rest =>
    if k2 = k then (k2, v) :: rest else (k2, v2) :: alist_set k v rest

/-- RiskManager._check_sector_exposure_limit (its verdict; the telemetry map
sector_exposures it also refreshes is not tracked). -/
def check_sector_exposure_limit (cfg : Settings) (rm : RiskManager)
    (s : TradingSignal) : Bool :=
  match rm.portfolio_manager with
  | none => true
  | some _ =>
    let pv := get_portfolio_value cfg rm
    if pv ≤ 0 then false
    else
      let exposures := compute_symbol_exposures rm pv
      if s.action = "SELL" then true
      else
        let quantity :=
          match s.quantity with
          | some q => q
          | none => calculate_position_size cfg rm s
        let exposures2 :=
          if s.action = "BUY" ∧ 0 < quantity ∧ 0 < s.price then
            alist_set s.symbol
              (((alist_find s.symbol exposures).getD 0 * pv +
                quantity * s.price) / pv) exposures
          else exposures
        decide
          ((exposures2.map Prod.snd).foldr max 0 ≤
            rm.risk_limits.max_sector_exposure)

/-- RiskManager._check_volume_requirements. -/
def check_volume_requirements (rm : RiskManager) (s : TradingSignal) : Bool :=
  match s.volume with
  | none => true
  | some v => decide (rm.risk_limits.min_volume ≤ v)

/-- RiskManager.validate_signal: the verdict, the reason string, and the
signal as the caller sees it afterwards (the source mutates
signal.quantity in place once sizing succeeds). -/
def validate_signal (cfg : Settings) (rm : RiskManager) (today : ℤ)
    (s : TradingSignal) : Bool × String × TradingSignal :=
  if check_daily_trade_limit rm today = false then
    (false, "daily trade limit reached", s)
  else if check_daily_loss_limit cfg rm today = false then
    (false, "daily loss limit reached", s)
  else
    let sized_qty := calculate_position_size cfg rm s
    if sized_qty ≤ 0 then (false, "position size too small", s)
    else
      let s2 := { s with quantity := some sized_qty }
      if check_correlation_limit rm s2 = false then
        (false, "correlation limit exceeded", s2)
      else if check_portfolio_risk_limit cfg rm s2 = false then
        (false, "portfolio risk limit exceeded", s2)
      else if check_sector_exposure_limit cfg rm s2 = false then
        (false, "position concentration limit exceeded", s2)
      else if check_volume_requirements rm s2 = false then
        (false, "volume too low", s2)
      else (true, "", s2)

/-- Equity series of RiskManager.calculate_var: snapshot total_value entries
that are present and positive, in timestamp order. -/
def snapshot_equity (snapshot_values : List (Option ℚ)) : List ℚ :=
  snapshot_values.filterMap (fun v =>
    match v with
    | some x => if 0 < x then some x else none
    | none => none)

/-- Ascending sort used by np.percentile. -/
def sorted_asc (xs : List ℚ) : List ℚ :=
  xs.mergeSort (fun a b => decide (a ≤ b))

/-- np.percentile with the default linear interpolation: the virtual index is
p/100 of (n-1); the result interpolates between the neighbouring order
statistics. -/
def np_percentile (xs : List ℚ) (p : ℚ) : ℚ :=
  let sorted := sorted_asc xs
  let n := sorted.length
  let rank := p / 100 * ((n : ℚ) - 1)
  let i := rank.floor.toNat
  let lo := sorted.getD i 0
  let hi := sorted.getD (min (i + 1) (n - 1)) 0
  lo + (rank - (rank.floor : ℚ)) * (hi - lo)

/-- RiskManager.calculate_var. The snapshot_values parameter stands for the
total_value column of the PortfolioSnapshot rows the source pulls from the
database (ordered by timestamp ascending), which is outside the core. -/
def calculate_var (rm : RiskManager) (snapshot_values : List (Option ℚ))
    (portfolio_value confidence_level : ℚ) : ℚ :=
  if portfolio_value ≤ 0 then 0
  else
    match rm.portfolio_manager with
    | none => 0
    | some pm =>
      if pm.portfolio_id = 0 then 0
      else
        let returns := to_returns (snapshot_equity snapshot_values)
        if returns.length < 5 then 0
        else
          |np_percentile returns ((1 - confidence_level) * 100)| *
            portfolio_value

/-- Portfolio with a 50 USD total value used by the C1 counterexample. -/
def rmSmallPortfolio : RiskManager :=
  { risk_limits := {}, portfolio_manager := some { total_value := 50 } }

/-- BUY at 10 with stop 9 used by the C1 counterexample. -/
def sigBuySmall : TradingSignal :=
  { symbol := "ABC-USD", action := "BUY", confidence := 9 / 10, price := 10,
    stop_loss := some 9, take_profit := some 12, strategy := "momentum" }

/-- The per-key well-formedness of a consolidation entry: the tracked best
signals carry the symbol of the key they are filed under. -/
def entry_symbols_ok (k : String) (e : SideEntry) : Prop :=
  (∀ b, e.best_buy = some b → b.symbol = k) ∧
  (∀ b, e.best_sell = some b → b.symbol = k)

/-- Invariant of the by_symbol accumulator: keys are pairwise distinct and
each entry only stores signals of its own symbol. -/
def by_symbol_ok (l : List (String × SideEntry)) : Prop :=
  l.Pairwise (fun p q => p.1 ≠ q.1) ∧ ∀ p ∈ l, entry_symbols_ok p.1 p.2

/-- Scenario B state of spec section 8: portfolio value 10000, daily P&L
-500, peak 10000. -/
def rmScenarioB : RiskManager :=
  { risk_limits := {}, daily_pnl := -500, peak_portfolio_value := 10000,
    portfolio_manager := some { total_value := 10000 } }

/-- A zero square-root stub usable as a concrete sqrtFn in witnesses (with
no embedded history the edge-filter volatility is 0 whatever sqrtFn is). -/
def sqrtZero : ℚ → ℚ := fun _ => 0

/-- Non-exit BUY whose expected reward 0.002 sits below the default adaptive
floor max(0.004, 0.0016). -/
def sigLowEdge : TradingSignal :=
  { symbol := "LOW-USD", action := "BUY", confidence := 9 / 10, price := 100,
    stop_loss := some 96, take_profit := some (1002 / 10),
    strategy := "momentum" }

/-- A forced exit-sweep signal. -/
def sigRiskExit : TradingSignal :=
  { symbol := "BTC-USD", action := "SELL", confidence := 1, price := 90,
    quantity := some 2, strategy := "risk_exit" }

/-- Consolidation context with default settings, no strategy metrics, no
prior trades and no open positions. -/
def ctxDefault : EngineCtx :=
  { cfg := defaultSettings, strategies := [], last_trade_at := [],
    positions := [], now := 0 }

/-- Scenario A BUY of spec section 8: confidence 0.8 on symbol X. -/
def sigBuyScenA : TradingSignal :=
  { symbol := "X", action := "BUY", confidence := 8 / 10, price := 100,
    stop_loss := some 96, take_profit := some 106, strategy := "momentum" }

/-- Scenario A SELL of spec section 8: confidence 0.5 on symbol X. -/
def sigSellScenA : TradingSignal :=
  { symbol := "X", action := "SELL", confidence := 1 / 2, price := 100,
    stop_loss := some 104, take_profit := some 96,
    strategy := "technical_analysis" }

/-- Conflicting BUY (confidence 0.72) used to witness the conflict gate. -/
def sigConfBuy : TradingSignal :=
  { symbol := "ADA-USD", action := "BUY", confidence := 72 / 100,
    price := 27 / 100, stop_loss := some (26 / 100),
    take_profit := some (29 / 100), strategy := "momentum" }

/-- Conflicting SELL (confidence 0.69) used to witness the conflict gate. -/
def sigConfSell : TradingSignal :=
  { symbol := "ADA-USD", action := "SELL", confidence := 69 / 100,
    price := 27 / 100, stop_loss := some (28 / 100),
    take_profit := some (25 / 100), strategy := "technical_analysis" }

/-- Risk manager holding 2 BTC-USD units on a 1000 USD portfolio. -/
def rmHolding : RiskManager :=
  { risk_limits := {},
    portfolio_manager := some
      { total_value := 1000,
        positions := [("BTC-USD", { quantity := 2, current_price := 100 })],
        portfolio_id := 1 } }

/-- Strategy-originated SELL for the held BTC-USD position. -/
def sigSellHeld : TradingSignal :=
  { symbol := "BTC-USD", action := "SELL", confidence := 1, price := 100,
    stop_loss := some 105, take_profit := some 95,
    strategy := "technical_analysis" }

/-- Risk manager with a 10000 USD portfolio, no open positions and a live
portfolio id. -/
def rmFlat : RiskManager :=
  { risk_limits := {},
    portfolio_manager := some
      { total_value := 10000, positions := [], portfolio_id := 1 } }

/-- BUY at 10 with stop 9 and take profit 12 used by validation witnesses. -/
def sigBuyTen : TradingSignal :=
  { symbol := "ETH-USD", action := "BUY", confidence := 9 / 10, price := 10,
    stop_loss := some 9, take_profit := some 12, strategy := "momentum" }

/-- Snapshot series giving six positive equity points (five returns). -/
def varSnapshots : List (Option ℚ) :=
  [some 100, some 101, some 99, some 102, some 98, some 103]

/-- Claim C7: for every SELL signal, calculate_position_size returns exactly
the held quantity when it is positive, 0 when the held quantity is not
positive or there is no position, and the result depends only on the held
position, so repeating the call with the position unchanged returns the same
value. -/
theorem calculate_position_size_sell_full_holding :
    (∀ (cfg : Settings) (rm : RiskManager) (s : TradingSignal) (q : ℚ),
      s.action = "SELL" → sell_side_holding rm s.symbol = some q → 0 < q →
      calculate_position_size cfg rm s = q)
    ∧ (∀ (cfg : Settings) (rm : RiskManager) (s : TradingSignal) (q : ℚ),
      s.action = "SELL" → sell_side_holding rm s.symbol = some q → q ≤ 0 →
      calculate_position_size cfg rm s = 0)
    ∧ (∀ (cfg : Settings) (rm : RiskManager) (s : TradingSignal),
      s.action = "SELL" → sell_side_holding rm s.symbol = none →
      calculate_position_size cfg rm s = 0)
    ∧ (∀ (cfg cfg2 : Settings) (rm rm2 : RiskManager) (s : TradingSignal),
      s.action = "SELL" →
      sell_side_holding rm s.symbol = sell_side_holding rm2 s.symbol →
      calculate_position_size cfg rm s = calculate_position_size cfg2 rm2 s) := by
  refine ⟨?_, ?_, ?_, ?_⟩
  · intro cfg rm s q ha hh hq
    unfold calculate_position_size
    rw [if_pos ha, hh]
    exact max_eq_left hq.le
  · intro cfg rm s q ha hh hq
    unfold calculate_position_size
    rw [if_pos ha, hh]
    exact max_eq_right hq
  · intro cfg rm s ha hh
    unfold calculate_position_size
    rw [if_pos ha, hh]
  · intro cfg cfg2 rm rm2 s ha hh
    unfold calculate_position_size
    rw [if_pos ha, if_pos ha, hh]

/-- Witness for C7 at the held 2-unit BTC-USD position. -/
theorem calculate_position_size_sell_full_holding_witness :
    calculate_position_size defaultSettings rmHolding sigSellHeld = 2 :=
  calculate_position_size_sell_full_holding.1 defaultSettings rmHolding
    sigSellHeld 2 rfl (by simp [sell_side_holding, rmHolding, sigSellHeld, alist_find])
    (by norm_num)

theorem reset_same_day (rm : RiskManager) (today : ℤ)
    (h : today = rm.last_reset_date) :
    reset_daily_counters_if_needed rm today = rm := by
  unfold reset_daily_counters_if_needed
  rw [if_neg (by simp [h])]

theorem reset_portfolio_manager (rm : RiskManager) (today : ℤ) :
    (reset_daily_counters_if_needed rm today).portfolio_manager =
      rm.portfolio_manager := by
  unfold reset_daily_counters_if_needed
  split <;> rfl

theorem get_portfolio_value_reset (cfg : Settings) (rm : RiskManager)
    (today : ℤ) :
    get_portfolio_value cfg (reset_daily_counters_if_needed rm today) =
      get_portfolio_value cfg rm := by
  unfold get_portfolio_value
  rw [reset_portfolio_manager]

theorem current_drawdown_ratio_eq (rm : RiskManager) (pv : ℚ) (h1 : 0 < pv)
    (h2 : 0 < rm.peak_portfolio_value) (h3 : pv ≤ rm.peak_portfolio_value) :
    current_drawdown_ratio rm pv =
      (rm.peak_portfolio_value - pv) / rm.peak_portfolio_value := by
  unfold current_drawdown_ratio
  rw [if_neg (not_le.mpr h1), if_neg (not_le.mpr h2)]
  exact max_eq_left (div_nonneg (sub_nonneg.mpr h3) h2.le)

/-- Claim C2: on a same-day call with positive portfolio value and recorded
peak at least the current value, check_risk_limits reports not-ok exactly
when the daily loss limit or the drawdown limit is breached; and a
non-positive portfolio value always reports not-ok (fails closed). -/
theorem check_risk_limits_not_ok_iff :
    (∀ (cfg : Settings) (rm : RiskManager) (today : ℤ),
      today = rm.last_reset_date →
      0 < get_portfolio_value cfg rm →
      get_portfolio_value cfg rm ≤ rm.peak_portfolio_value →
      ((check_risk_limits cfg rm today).2.1 = false ↔
        (rm.daily_pnl ≤
            -(get_portfolio_value cfg rm * rm.risk_limits.max_daily_loss) ∨
          rm.risk_limits.max_drawdown <
            (rm.peak_portfolio_value - get_portfolio_value cfg rm) /
              rm.peak_portfolio_value)))
    ∧ (∀ (cfg : Settings) (rm : RiskManager) (today : ℤ),
      get_portfolio_value cfg rm ≤ 0 →
      (check_risk_limits cfg rm today).2.1 = false) := by
  constructor
  · intro cfg rm today hday hpv hpeak
    have hpeakpos : 0 < rm.peak_portfolio_value := lt_of_lt_of_le hpv hpeak
    have hmax : max rm.peak_portfolio_value (get_portfolio_value cfg rm) =
        rm.peak_portfolio_value := max_eq_left hpeak
    unfold check_risk_limits
    rw [reset_same_day rm today hday]
    rw [if_neg (not_le.mpr hpv)]
    have hproj : ({ rm with peak_portfolio_value := max rm.peak_portfolio_value (get_portfolio_value cfg rm) } : RiskManager).peak_portfolio_value = rm.peak_portfolio_value := by
      rw [show ({ rm with peak_portfolio_value := max rm.peak_portfolio_value (get_portfolio_value cfg rm) } : RiskManager).peak_portfolio_value = max rm.peak_portfolio_value (get_portfolio_value cfg rm) from rfl, hmax]
    have hdd := current_drawdown_ratio_eq { rm with peak_portfolio_value := max rm.peak_portfolio_value (get_portfolio_value cfg rm) } (get_portfolio_value cfg rm) hpv (by rw [hproj]; exact hpeakpos) (by rw [hproj]; exact hpeak)
    rw [hproj] at hdd
    simp only []
    split_ifs with h1 h2
    · exact iff_of_true rfl (Or.inl h1)
    · rw [hdd] at h2
      exact iff_of_true rfl (Or.inr h2)
    · rw [hdd] at h2
      exact iff_of_false (by simp) (not_or.mpr ⟨h1, h2⟩)
  · intro cfg rm today hpv
    unfold check_risk_limits
    rw [if_pos (by rw [get_portfolio_value_reset]; exact hpv)]

/-- Witness for C2 at Scenario B of the spec: value 10000, daily P&L -500,
max daily loss 5 percent, peak 10000. -/
theorem check_risk_limits_not_ok_iff_witness :
    (check_risk_limits defaultSettings rmScenarioB 0).2.1 = false :=
  (check_risk_limits_not_ok_iff.1 defaultSettings rmScenarioB 0 rfl
    (by norm_num [get_portfolio_value, rmScenarioB, max_def])
    (by norm_num [get_portfolio_value, rmScenarioB, max_def])).mpr
    (Or.inl (by norm_num [get_portfolio_value, rmScenarioB, max_def]))

/-- Claim C9: calculate_var returns 0 when the portfolio value is not
positive or the value series yields fewer than 5 return observations, and
otherwise returns the magnitude of the (1-confidence) percentile of the
period returns times the portfolio value. -/
theorem calculate_var_spec :
    (∀ (rm : RiskManager) (vals : List (Option ℚ)) (pv conf : ℚ),
      pv ≤ 0 → calculate_var rm vals pv conf = 0)
    ∧ (∀ (rm : RiskManager) (vals : List (Option ℚ)) (pv conf : ℚ),
      (to_returns (snapshot_equity vals)).length < 5 →
      calculate_var rm vals pv conf = 0)
    ∧ (∀ (rm : RiskManager) (pm : PortfolioManager) (vals : List (Option ℚ))
        (pv conf : ℚ),
      rm.portfolio_manager = some pm → pm.portfolio_id ≠ 0 → 0 < pv →
      5 ≤ (to_returns (snapshot_equity vals)).length →
      calculate_var rm vals pv conf =
        |np_percentile (to_returns (snapshot_equity vals))
          ((1 - conf) * 100)| * pv) := by
  refine ⟨?_, ?_, ?_⟩
  · intro rm vals pv conf hpv
    unfold calculate_var
    rw [if_pos hpv]
  · intro rm vals pv conf hlen
    unfold calculate_var
    split_ifs with h1
    · rfl
    · cases hpm : rm.portfolio_manager with
      | none => rfl
      | some pm =>
        simp only []
        split_ifs with h2 <;> rfl
  · intro rm pm vals pv conf hpm hid hpv hlen
    unfold calculate_var
    rw [if_neg (not_le.mpr hpv), hpm]
    simp only []
    rw [if_neg hid, if_neg (not_lt.mpr hlen)]

/-- Witness for C9 on a six-point snapshot series with five returns. -/
theorem calculate_var_spec_witness :
    calculate_var rmFlat varSnapshots 10000 (95 / 100) =
      |np_percentile (to_returns (snapshot_equity varSnapshots))
        ((1 - 95 / 100) * 100)| * 10000 :=
  calculate_var_spec.2.2 rmFlat
    { total_value := 10000, positions := [], portfolio_id := 1 }
    varSnapshots 10000 (95 / 100) rfl (by norm_num) (by norm_num)
    (by norm_num [varSnapshots, snapshot_equity, to_returns, List.filterMap])

/-- Claim C10: once the daily-trade and daily-loss gates pass and sizing
computes a positive quantity, validate_signal hands back the signal with its
quantity overwritten by the computed size, whatever the later correlation,
portfolio-risk, concentration and volume checks decide. -/
theorem validate_signal_overwrites_quantity (cfg : Settings)
    (rm : RiskManager) (today : ℤ) (s : TradingSignal)
    (h1 : check_daily_trade_limit rm today = true)
    (h2 : check_daily_loss_limit cfg rm today = true)
    (h3 : 0 < calculate_position_size cfg rm s) :
    (validate_signal cfg rm today s).2.2 =
      { s with quantity := some (calculate_position_size cfg rm s) } := by
  unfold validate_signal
  rw [if_neg (by simp [h1]), if_neg (by simp [h2])]
  simp only []
  rw [if_neg (not_le.mpr h3)]
  split_ifs <;> rfl

/-- Witness for C10: a BUY over a 10000 USD portfolio is resized to 100
units and the resized signal is returned. -/
theorem validate_signal_overwrites_quantity_witness :
    (validate_signal defaultSettings rmFlat 0 sigBuyTen).2.2 =
      { sigBuyTen with quantity := some (calculate_position_size defaultSettings rmFlat sigBuyTen) } :=
  validate_signal_overwrites_quantity defaultSettings rmFlat 0 sigBuyTen
    (by norm_num [check_daily_trade_limit, reset_daily_counters_if_needed,
      rmFlat])
    (by norm_num [check_daily_loss_limit, reset_daily_counters_if_needed,
      get_portfolio_value, rmFlat, max_def])
    (by norm_num [calculate_position_size, get_portfolio_value,
      sell_side_holding, rmFlat, sigBuyTen, defaultSettings, max_def, min_def,
      alist_find]; simp)

theorem calculate_position_size_small_eval :
    calculate_position_size defaultSettings rmSmallPortfolio sigBuySmall = 1 := by
  norm_num [calculate_position_size, get_portfolio_value, sell_side_holding,
    rmSmallPortfolio, sigBuySmall, defaultSettings, max_def, min_def,
    alist_find]
  all_goals simp

/-- Counterexample to C1 as stated: on a 50 USD portfolio with default
settings, the BUY at 10 with stop 9 is sized to 1 unit by the
minimum-notional floor, so the notional 10 exceeds
maxPositionSizePct times portfolioValue = 5. -/
theorem calculate_position_size_cap_counterexample :
    ¬(calculate_position_size defaultSettings rmSmallPortfolio sigBuySmall *
        sigBuySmall.price ≤
      rmSmallPortfolio.risk_limits.max_position_size *
        get_portfolio_value defaultSettings rmSmallPortfolio) := by
  rw [calculate_position_size_small_eval]
  norm_num [rmSmallPortfolio, sigBuySmall, get_portfolio_value, max_def]

/-- Claim C1 amended: for a BUY with positive price, the notional of the
returned size never exceeds the position-size cap
maxPositionSizePct times portfolioValue, except that the
minimum-tradable-unit and minimum-notional floors may lift it up to
MIN_POSITION_NOTIONAL or MIN_POSITION_UNITS times price. -/
theorem calculate_position_size_buy_notional_bound (cfg : Settings)
    (rm : RiskManager) (s : TradingSignal) (ha : s.action = "BUY")
    (hp : 0 < s.price) (hmn : 0 ≤ cfg.MIN_POSITION_NOTIONAL) :
    calculate_position_size cfg rm s * s.price ≤
      max (max (get_portfolio_value cfg rm * rm.risk_limits.max_position_size)
        cfg.MIN_POSITION_NOTIONAL) (cfg.MIN_POSITION_UNITS * s.price) := by
  have hzero : (0 : ℚ) ≤
      max (max (get_portfolio_value cfg rm * rm.risk_limits.max_position_size)
        cfg.MIN_POSITION_NOTIONAL) (cfg.MIN_POSITION_UNITS * s.price) :=
    le_trans hmn (le_trans (le_max_right _ _) (le_max_left _ _))
  unfold calculate_position_size
  rw [if_neg (by simp [ha])]
  simp only []
  split_ifs with h1
  · simpa using hzero
  · cases hsl : s.stop_loss with
    | none => simpa using hzero
    | some sl =>
      simp only []
      split_ifs with h2 h3 h4
      · simpa using hzero
      · simpa using hzero
      · rw [div_mul_cancel₀ _ (ne_of_gt hp)]
        exact le_trans (le_max_right _ _) (le_max_left _ _)
      · calc max (min (get_portfolio_value cfg rm *
              rm.risk_limits.max_portfolio_risk / |s.price - sl|)
              (get_portfolio_value cfg rm *
                rm.risk_limits.max_position_size / s.price))
              cfg.MIN_POSITION_UNITS * s.price
            = max (min (get_portfolio_value cfg rm *
                rm.risk_limits.max_portfolio_risk / |s.price - sl|)
                (get_portfolio_value cfg rm *
                  rm.risk_limits.max_position_size / s.price) * s.price)
                (cfg.MIN_POSITION_UNITS * s.price) :=
              max_mul_of_nonneg _ _ hp.le
          _ ≤ max (get_portfolio_value cfg rm *
                rm.risk_limits.max_position_size)
                (cfg.MIN_POSITION_UNITS * s.price) := by
              apply max_le_max_right
              calc _ ≤ get_portfolio_value cfg rm *
                    rm.risk_limits.max_position_size / s.price * s.price :=
                  mul_le_mul_of_nonneg_right (min_le_right _ _) hp.le
                _ = get_portfolio_value cfg rm *
                    rm.risk_limits.max_position_size :=
                  div_mul_cancel₀ _ (ne_of_gt hp)
          _ ≤ _ := max_le_max_right _ (le_max_left _ _)

/-- Witness for the amended C1 bound on the 10000 USD portfolio. -/
theorem calculate_position_size_buy_notional_bound_witness :
    calculate_position_size defaultSettings rmFlat sigBuyTen *
        sigBuyTen.price ≤
      max (max (get_portfolio_value defaultSettings rmFlat *
        rmFlat.risk_limits.max_position_size)
        defaultSettings.MIN_POSITION_NOTIONAL)
        (defaultSettings.MIN_POSITION_UNITS * sigBuyTen.price) :=
  calculate_position_size_buy_notional_bound defaultSettings rmFlat sigBuyTen
    rfl (by norm_num [sigBuyTen]) (by norm_num [defaultSettings])

/-- Claim C3: with the adaptive filter enabled, any non-risk_exit signal
whose expected reward sits strictly below the adaptive floor
max(configured minimum edge, fee-and-slippage budget plus stdev times the
volatility multiplier) is rejected, for the stdev computed from its embedded
history under an arbitrary square-root function; and a risk_exit signal
always passes the edge filter. -/
theorem edge_filter_floor_reject_and_risk_exit_pass :
    (∀ (cfg : Settings) (sqrtFn : ℚ → ℚ) (s : TradingSignal),
      s.strategy ≠ "risk_exit" →
      cfg.ADVANCED_ENTRY_FILTER_ENABLED = true →
      expected_reward_ratio s < edge_min_reward cfg sqrtFn s →
      passes_edge_filter cfg sqrtFn s = false)
    ∧ (∀ (cfg : Settings) (sqrtFn : ℚ → ℚ) (s : TradingSignal),
      s.strategy = "risk_exit" → passes_edge_filter cfg sqrtFn s = true) := by
  constructor
  · intro cfg sqrtFn s h1 h2 h3
    unfold passes_edge_filter
    rw [if_neg h1]
    simp only []
    split_ifs <;> simp_all
  · intro cfg sqrtFn s h
    unfold passes_edge_filter
    rw [if_pos h]

/-- Witness for C3: a BUY with expected reward 0.002 under the default floor
0.004 is rejected, and a risk_exit SELL passes. -/
theorem edge_filter_floor_reject_and_risk_exit_pass_witness :
    passes_edge_filter defaultSettings sqrtZero sigLowEdge = false ∧
      passes_edge_filter defaultSettings sqrtZero sigRiskExit = true :=
  ⟨edge_filter_floor_reject_and_risk_exit_pass.1 defaultSettings sqrtZero
      sigLowEdge (by simp [sigLowEdge]) rfl
      (by norm_num [expected_reward_ratio, edge_min_reward, edge_volatility,
        return_stats, extract_closes, fee_slippage_budget, sigLowEdge,
        defaultSettings, alist_find, max_def, abs_of_nonneg]),
    edge_filter_floor_reject_and_risk_exit_pass.2 defaultSettings sqrtZero
      sigRiskExit rfl⟩

theorem dropWhile_eq_self_of_forall {α : Type} (p : α → Bool) :
    ∀ l : List α, (∀ a ∈ l, p a = false) → l.dropWhile p = l := by
  intro l h
  cases l with
  | nil => rfl
  | cons a t =>
    rw [List.dropWhile_cons]
    rw [h a (List.mem_cons_self a t)]
    simp

/-- Claim C8: once max(MAX_TRADES_PER_HOUR, 1) executed-trade timestamps lie
inside the trailing 60 minutes, a non-risk_exit signal is rejected; when the
oldest timestamp has aged out of the window it is discarded and a signal
passes again on remaining capacity; and risk_exit signals always pass with
the deque untouched. -/
theorem hourly_trade_limit_window :
    (∀ (cfg : Settings) (now : ℚ) (ts : List ℚ) (s : TradingSignal),
      s.strategy ≠ "risk_exit" → 1 ≤ cfg.MAX_TRADES_PER_HOUR →
      cfg.MAX_TRADES_PER_HOUR ≤ ts.length →
      (∀ t ∈ ts, now - 3600 ≤ t) →
      (passes_hourly_trade_limit cfg now ts s).1 = false)
    ∧ (∀ (cfg : Settings) (now t0 : ℚ) (rest : List ℚ) (s : TradingSignal),
      s.strategy ≠ "risk_exit" → t0 < now - 3600 →
      (∀ t ∈ rest, now - 3600 ≤ t) →
      rest.length < max cfg.MAX_TRADES_PER_HOUR 1 →
      passes_hourly_trade_limit cfg now (t0 :: rest) s = (true, rest))
    ∧ (∀ (cfg : Settings) (now : ℚ) (ts : List ℚ) (s : TradingSignal),
      s.strategy = "risk_exit" →
      passes_hourly_trade_limit cfg now ts s = (true, ts)) := by
  refine ⟨?_, ?_, ?_⟩
  · intro cfg now ts s hne hcap hlen hin
    unfold passes_hourly_trade_limit
    rw [if_neg hne]
    simp only []
    rw [dropWhile_eq_self_of_forall _ ts
      (fun a ha => by simp [not_lt.mpr (hin a ha)])]
    simp only [decide_eq_false_iff_not, not_lt]
    rw [Nat.max_eq_left hcap]
    exact hlen
  · intro cfg now t0 rest s hne h0 hin hlen
    unfold passes_hourly_trade_limit
    rw [if_neg hne]
    simp only []
    rw [List.dropWhile_cons]
    rw [show (decide (t0 < now - 3600)) = true from by simp [h0]]
    simp only []
    rw [dropWhile_eq_self_of_forall _ rest
      (fun a ha => by simp [not_lt.mpr (hin a ha)])]
    simp [hlen]
  · intro cfg now ts s h
    unfold passes_hourly_trade_limit
    rw [if_pos h]

/-- Witness for C8 with a 2-per-hour cap: a full window rejects, an aged-out
oldest timestamp restores capacity, and a risk_exit signal passes. -/
theorem hourly_trade_limit_window_witness :
    (passes_hourly_trade_limit
        { defaultSettings with MAX_TRADES_PER_HOUR := 2 } 3700 [200, 300]
        sigBuyTen).1 = false ∧
      passes_hourly_trade_limit
        { defaultSettings with MAX_TRADES_PER_HOUR := 2 } 3700 [50, 300]
        sigBuyTen = (true, [300]) ∧
      passes_hourly_trade_limit
        { defaultSettings with MAX_TRADES_PER_HOUR := 2 } 3700 [200, 300]
        sigRiskExit = (true, [200, 300]) :=
  ⟨hourly_trade_limit_window.1 _ 3700 [200, 300] sigBuyTen
      (by simp [sigBuyTen]) (by norm_num) (by norm_num)
      (by intro t ht; cases ht with
        | head => norm_num
        | tail _ h2 => cases h2 with
          | head => norm_num
          | tail _ h3 => cases h3),
    hourly_trade_limit_window.2.1 _ 3700 50 [300] sigBuyTen
      (by simp [sigBuyTen]) (by norm_num)
      (by intro t ht; cases ht with
        | head => norm_num
        | tail _ h2 => cases h2)
      (by norm_num),
    hourly_trade_limit_window.2.2 _ 3700 [200, 300] sigRiskExit rfl⟩

/-- Claim C6: every state assignment of start(), stop() and the risk-halt
branch follows the allowed transition chain (with ERROR reachable only as
the failure target), start() outside STOPPED and stop() outside RUNNING
change nothing, and a risk breach while RUNNING goes straight to STOPPED. -/
theorem engine_state_machine_transitions :
    (∀ (s : TradingState) (r : OpResult),
      List.Chain EngineEdge s (start_states s r))
    ∧ (∀ (s : TradingState) (r : OpResult),
      List.Chain EngineEdge s (stop_states s r))
    ∧ (∀ s : TradingState, List.Chain EngineEdge s (risk_halt_states s))
    ∧ (∀ (s : TradingState) (r : OpResult), s ≠ TradingState.stopped →
      start_states s r = [])
    ∧ (∀ (s : TradingState) (r : OpResult), s ≠ TradingState.running →
      stop_states s r = [])
    ∧ risk_halt_states TradingState.running = [TradingState.stopped] := by
  have hstart : ∀ (s : TradingState) (r : OpResult),
      s ≠ TradingState.stopped → start_states s r = [] := by
    intro s r h
    rw [start_states.eq_def, if_pos h]
  have hstop : ∀ (s : TradingState) (r : OpResult),
      s ≠ TradingState.running → stop_states s r = [] := by
    intro s r h
    rw [stop_states.eq_def, if_pos h]
  refine ⟨?_, ?_, ?_, hstart, hstop, ?_⟩
  · intro s r
    by_cases h : s = TradingState.stopped
    · subst h
      cases r
      · rw [show start_states TradingState.stopped OpResult.success =
            [TradingState.starting, TradingState.running] from by
          simp [start_states]]
        exact List.Chain.cons .start_begin
          (List.Chain.cons .start_done List.Chain.nil)
      · rw [show start_states TradingState.stopped OpResult.fail_early =
            [TradingState.starting, TradingState.error] from by
          simp [start_states]]
        exact List.Chain.cons .start_begin
          (List.Chain.cons (.fail _) List.Chain.nil)
      · rw [show start_states TradingState.stopped OpResult.fail_late =
            [TradingState.starting, TradingState.running,
              TradingState.error] from by simp [start_states]]
        exact List.Chain.cons .start_begin (List.Chain.cons .start_done
          (List.Chain.cons (.fail _) List.Chain.nil))
    · rw [hstart s r h]
      exact List.Chain.nil
  · intro s r
    by_cases h : s = TradingState.running
    · subst h
      cases r
      · rw [show stop_states TradingState.running OpResult.success =
            [TradingState.stopping, TradingState.stopped] from by
          simp [stop_states]]
        exact List.Chain.cons .stop_begin
          (List.Chain.cons .stop_done List.Chain.nil)
      · rw [show stop_states TradingState.running OpResult.fail_early =
            [TradingState.stopping, TradingState.error] from by
          simp [stop_states]]
        exact List.Chain.cons .stop_begin
          (List.Chain.cons (.fail _) List.Chain.nil)
      · rw [show stop_states TradingState.running OpResult.fail_late =
            [TradingState.stopping, TradingState.stopped,
              TradingState.error] from by simp [stop_states]]
        exact List.Chain.cons .stop_begin (List.Chain.cons .stop_done
          (List.Chain.cons (.fail _) List.Chain.nil))
    · rw [hstop s r h]
      exact List.Chain.nil
  · intro s
    by_cases h : s = TradingState.running
    · subst h
      rw [show risk_halt_states TradingState.running =
          [TradingState.stopped] from by simp [risk_halt_states]]
      exact List.Chain.cons .risk_halt List.Chain.nil
    · rw [show risk_halt_states s = [] from by
        rw [risk_halt_states.eq_def, if_neg h]]
      exact List.Chain.nil
  · simp [risk_halt_states]

/-- Witness for C6: start() in RUNNING is a no-op, applied through the
theorem. -/
theorem engine_state_machine_transitions_witness :
    start_states TradingState.running OpResult.success = [] :=
  engine_state_machine_transitions.2.2.2.1 TradingState.running
    OpResult.success (by simp)

theorem entry_symbols_ok_empty (k : String) :
    entry_symbols_ok k ({} : SideEntry) := by
  constructor <;> intro b h <;> exact Option.noConfusion h

theorem apply_signal_symbols_ok (ctx : EngineCtx) (s : TradingSignal)
    (e : SideEntry) (k : String) (hs : s.symbol = k)
    (he : entry_symbols_ok k e) :
    entry_symbols_ok k (apply_signal ctx s e) := by
  unfold apply_signal
  by_cases hb : s.action = "BUY"
  · rw [if_pos hb]
    constructor
    · intro b hbb
      simp only [Option.some.injEq] at hbb
      cases hbest : e.best_buy with
      | none =>
        rw [hbest] at hbb
        simp only [] at hbb
        rw [← hbb]
        exact hs
      | some b0 =>
        rw [hbest] at hbb
        simp only [] at hbb
        by_cases hc : b0.confidence < s.confidence
        · rw [if_pos hc] at hbb
          rw [← hbb]
          exact hs
        · rw [if_neg hc] at hbb
          rw [← hbb]
          exact he.1 b0 hbest
    · intro b hbb
      exact he.2 b hbb
  · rw [if_neg hb]
    constructor
    · intro b hbb
      exact he.1 b hbb
    · intro b hbb
      simp only [Option.some.injEq] at hbb
      cases hbest : e.best_sell with
      | none =>
        rw [hbest] at hbb
        simp only [] at hbb
        rw [← hbb]
        exact hs
      | some b0 =>
        rw [hbest] at hbb
        simp only [] at hbb
        by_cases hc : b0.confidence < s.confidence
        · rw [if_pos hc] at hbb
          rw [← hbb]
          exact hs
        · rw [if_neg hc] at hbb
          rw [← hbb]
          exact he.2 b0 hbest

theorem mem_upsert_entry (ctx : EngineCtx) (s : TradingSignal) :
    ∀ (acc : List (String × SideEntry)) (p : String × SideEntry),
      p ∈ upsert_entry ctx s acc → p.1 = s.symbol ∨ p ∈ acc := by
  intro acc
  induction acc with
  | nil =>
    intro p hp
    simp only [upsert_entry, List.mem_singleton] at hp
    left
    rw [hp]
  | cons a t ih =>
    obtain ⟨k, e⟩ := a
    intro p hp
    by_cases hk : k = s.symbol
    · rw [upsert_entry, if_pos hk] at hp
      cases List.mem_cons.mp hp with
      | inl h => left; rw [h, hk]
      | inr h => right; exact List.mem_cons_of_mem _ h
    · rw [upsert_entry, if_neg hk] at hp
      cases List.mem_cons.mp hp with
      | inl h => right; rw [h]; exact List.mem_cons_self _ _
      | inr h =>
        cases ih p h with
        | inl h2 => left; exact h2
        | inr h2 => right; exact List.mem_cons_of_mem _ h2

theorem upsert_entry_pairwise (ctx : EngineCtx) (s : TradingSignal) :
    ∀ acc : List (String × SideEntry),
      acc.Pairwise (fun p q => p.1 ≠ q.1) →
      (upsert_entry ctx s acc).Pairwise (fun p q => p.1 ≠ q.1) := by
  intro acc
  induction acc with
  | nil =>
    intro _
    simp [upsert_entry]
  | cons a t ih =>
    obtain ⟨k, e⟩ := a
    intro hpw
    rw [List.pairwise_cons] at hpw
    obtain ⟨hk, ht⟩ := hpw
    by_cases hks : k = s.symbol
    · rw [upsert_entry, if_pos hks, List.pairwise_cons]
      exact ⟨hk, ht⟩
    · rw [upsert_entry, if_neg hks, List.pairwise_cons]
      refine ⟨?_, ih ht⟩
      intro q hq
      cases mem_upsert_entry ctx s t q hq with
      | inl h => rw [h]; exact hks
      | inr h => exact hk q h

theorem upsert_entry_symbols_ok (ctx : EngineCtx) (s : TradingSignal) :
    ∀ acc : List (String × SideEntry),
      (∀ p ∈ acc, entry_symbols_ok p.1 p.2) →
      ∀ p ∈ upsert_entry ctx s acc, entry_symbols_ok p.1 p.2 := by
  intro acc
  induction acc with
  | nil =>
    intro _ p hp
    simp only [upsert_entry, List.mem_singleton] at hp
    rw [hp]
    exact apply_signal_symbols_ok ctx s {} s.symbol rfl
      (entry_symbols_ok_empty s.symbol)
  | cons a t ih =>
    obtain ⟨k, e⟩ := a
    intro hacc p hp
    by_cases hks : k = s.symbol
    · rw [upsert_entry, if_pos hks] at hp
      cases List.mem_cons.mp hp with
      | inl h =>
        rw [h]
        exact apply_signal_symbols_ok ctx s e k hks.symm
          (hacc (k, e) (List.mem_cons_self _ _))
      | inr h => exact hacc p (List.mem_cons_of_mem _ h)
    · rw [upsert_entry, if_neg hks] at hp
      cases List.mem_cons.mp hp with
      | inl h =>
        rw [h]
        exact hacc (k, e) (List.mem_cons_self _ _)
      | inr h =>
        exact ih (fun q hq => hacc q (List.mem_cons_of_mem _ hq)) p h

theorem by_symbol_build_ok (ctx : EngineCtx) :
    ∀ (signals : List TradingSignal) (acc : List (String × SideEntry)),
      by_symbol_ok acc → by_symbol_ok (by_symbol_build ctx signals acc) := by
  intro signals
  induction signals with
  | nil =>
    intro acc h
    exact h
  | cons s rest ih =>
    intro acc h
    rw [by_symbol_build]
    split_ifs with hc
    · exact ih _ ⟨upsert_entry_pairwise ctx s acc h.1,
        upsert_entry_symbols_ok ctx s acc h.2⟩
    · exact ih _ h

theorem resolve_entry_best (cfg : Settings) (e : SideEntry)
    (sel : TradingSignal) (h : resolve_entry cfg e = some sel) :
    e.best_buy = some sel ∨ e.best_sell = some sel := by
  unfold resolve_entry at h
  split_ifs at h <;> first | exact Or.inl h | exact Or.inr h

theorem select_for_symbol_symbol (ctx : EngineCtx) (k : String)
    (e : SideEntry) (sel : TradingSignal) (he : entry_symbols_ok k e)
    (h : select_for_symbol ctx e = some sel) : sel.symbol = k := by
  unfold select_for_symbol at h
  cases hres : resolve_entry ctx.cfg e with
  | none => rw [hres] at h; exact Option.noConfusion h
  | some x =>
    rw [hres] at h
    simp only [] at h
    split_ifs at h <;>
      first
        | exact Option.noConfusion h
        | (rw [← Option.some.inj h]
           cases resolve_entry_best ctx.cfg e x hres with
           | inl hb => exact he.1 x hb
           | inr hb => exact he.2 x hb)

theorem alist_find_of_mem {α : Type} (k : String) (v : α) :
    ∀ l : List (String × α), (k, v) ∈ l →
      l.Pairwise (fun p q => p.1 ≠ q.1) → alist_find k l = some v := by
  intro l
  induction l with
  | nil => intro h; exact absurd h (List.not_mem_nil _)
  | cons a t ih =>
    obtain ⟨k2, v2⟩ := a
    intro hmem hpw
    rw [List.pairwise_cons] at hpw
    cases List.mem_cons.mp hmem with
    | inl h =>
      obtain ⟨h1, h2⟩ := Prod.mk.injEq .. ▸ h
      rw [alist_find, if_pos h1.symm]
      rw [h2]
    | inr h =>
      have hne : k2 ≠ k := by
        intro hk
        exact (hpw.1 (k, v) h) (by rw [hk])
      rw [alist_find, if_neg hne]
      exact ih h hpw.2

theorem mem_consolidate (ctx : EngineCtx) (signals : List TradingSignal)
    (s : TradingSignal) (h : s ∈ consolidate_signals ctx signals) :
    ∃ p, p ∈ by_symbol_build ctx signals [] ∧
      select_for_symbol ctx p.2 = some s := by
  unfold consolidate_signals at h
  have h2 : s ∈ (by_symbol_build ctx signals []).filterMap
      (fun p => select_for_symbol ctx p.2) :=
    (List.mergeSort_perm _ _).subset (List.mem_of_mem_take h)
  obtain ⟨p, hp, hps⟩ := List.mem_filterMap.mp h2
  exact ⟨p, hp, hps⟩

theorem filterMap_select_pairwise (ctx : EngineCtx) :
    ∀ l : List (String × SideEntry), by_symbol_ok l →
      (l.filterMap (fun p => select_for_symbol ctx p.2)).Pairwise
        (fun a b => a.symbol ≠ b.symbol) := by
  intro l
  induction l with
  | nil => intro _; simp
  | cons p t ih =>
    intro h
    have hok := h.2 p (List.mem_cons_self p t)
    have ht : by_symbol_ok t :=
      ⟨(List.pairwise_cons.mp h.1).2,
        fun q hq => h.2 q (List.mem_cons_of_mem p hq)⟩
    rw [List.filterMap_cons]
    cases hsel : select_for_symbol ctx p.2 with
    | none => exact ih ht
    | some x =>
      rw [List.pairwise_cons]
      refine ⟨?_, ih ht⟩
      intro y hy
      obtain ⟨q, hq, hqy⟩ := List.mem_filterMap.mp hy
      have hys : y.symbol = q.1 :=
        select_for_symbol_symbol ctx q.1 q.2 y
          (h.2 q (List.mem_cons_of_mem p hq)) hqy
      have hxs : x.symbol = p.1 :=
        select_for_symbol_symbol ctx p.1 p.2 x hok hsel
      rw [hxs, hys]
      exact (List.pairwise_cons.mp h.1).1 q hq

/-- Claim C5: for every input list of signals (and a positive per-cycle
cap), consolidation emits at most one signal per symbol and at most
MAX_SIGNALS_PER_CYCLE signals in total. -/
theorem consolidate_per_symbol_unique_and_capped (ctx : EngineCtx)
    (signals : List TradingSignal)
    (hcap : 1 ≤ ctx.cfg.MAX_SIGNALS_PER_CYCLE) :
    (consolidate_signals ctx signals).length ≤
        ctx.cfg.MAX_SIGNALS_PER_CYCLE ∧
      (consolidate_signals ctx signals).Pairwise
        (fun a b => a.symbol ≠ b.symbol) := by
  constructor
  · unfold consolidate_signals
    rw [List.length_take]
    exact le_trans (min_le_left _ _) (le_of_eq (Nat.max_eq_left hcap))
  · unfold consolidate_signals
    have h0 : by_symbol_ok (by_symbol_build ctx signals []) :=
      by_symbol_build_ok ctx signals [] ⟨List.Pairwise.nil, by simp⟩
    have h1 := filterMap_select_pairwise ctx _ h0
    have h2 := ((List.mergeSort_perm
      ((by_symbol_build ctx signals []).filterMap
        (fun p => select_for_symbol ctx p.2))
      (fun a b =>
        decide (signal_priority ctx b ≤ signal_priority ctx a))).pairwise_iff
      (fun h => h.symm)).mpr h1
    exact h2.sublist (List.take_sublist _ _)

/-- Witness for C5 on the Scenario A signal pair under the default cap 3. -/
theorem consolidate_per_symbol_unique_and_capped_witness :
    (consolidate_signals ctxDefault [sigBuyScenA, sigSellScenA]).length ≤
        ctxDefault.cfg.MAX_SIGNALS_PER_CYCLE ∧
      (consolidate_signals ctxDefault [sigBuyScenA, sigSellScenA]).Pairwise
        (fun a b => a.symbol ≠ b.symbol) :=
  consolidate_per_symbol_unique_and_capped ctxDefault
    [sigBuyScenA, sigSellScenA]
    (by norm_num [ctxDefault, defaultSettings])

/-- Claim C4: a symbol whose entry has positive buy and sell strength with
neither side at least the other times the conflict ratio never reaches the
consolidated output; when either side dominates by the ratio, resolution
picks that side's tracked best signal (for the SELL side under a conflict
ratio above 1, since at ratio 1 or below the buy-first elif of the source
can win a mutual tie); the tracked best of each side is the
highest-confidence signal folded in; and Scenario A (BUY 0.8 vs SELL 0.5 at
ratio 1.35) consolidates to the BUY. -/
theorem consolidation_conflict_and_dominance :
    (∀ (ctx : EngineCtx) (signals : List TradingSignal) (sym : String)
      (e : SideEntry),
      alist_find sym (by_symbol_build ctx signals []) = some e →
      0 < e.buy_strength → 0 < e.sell_strength →
      e.buy_strength < e.sell_strength * ctx.cfg.conflict_strength_ratio →
      e.sell_strength < e.buy_strength * ctx.cfg.conflict_strength_ratio →
      ∀ s ∈ consolidate_signals ctx signals, s.symbol ≠ sym)
    ∧ (∀ (cfg : Settings) (e : SideEntry),
      0 < e.buy_strength → 0 < e.sell_strength →
      e.sell_strength * cfg.conflict_strength_ratio ≤ e.buy_strength →
      resolve_entry cfg e = e.best_buy)
    ∧ (∀ (cfg : Settings) (e : SideEntry),
      0 < e.buy_strength → 0 < e.sell_strength →
      1 < cfg.conflict_strength_ratio →
      e.buy_strength * cfg.conflict_strength_ratio ≤ e.sell_strength →
      resolve_entry cfg e = e.best_sell)
    ∧ (∀ (ctx : EngineCtx) (s : TradingSignal) (e : SideEntry)
      (b : TradingSignal),
      s.action = "BUY" → (apply_signal ctx s e).best_buy = some b →
      s.confidence ≤ b.confidence ∧
        ∀ b0, e.best_buy = some b0 → b0.confidence ≤ b.confidence)
    ∧ (∀ (ctx : EngineCtx) (s : TradingSignal) (e : SideEntry)
      (b : TradingSignal),
      s.action = "SELL" → (apply_signal ctx s e).best_sell = some b →
      s.confidence ≤ b.confidence ∧
        ∀ b0, e.best_sell = some b0 → b0.confidence ≤ b.confidence)
    ∧ consolidate_signals ctxDefault [sigBuyScenA, sigSellScenA] =
        [sigBuyScenA] := by
  refine ⟨?_, ?_, ?_, ?_, ?_, ?_⟩
  · intro ctx signals sym e hfind hb hs hlt1 hlt2 s hmem hcon
    obtain ⟨p, hp, hsel⟩ := mem_consolidate ctx signals s hmem
    have hok := by_symbol_build_ok ctx signals [] ⟨List.Pairwise.nil, by simp⟩
    have hsym : s.symbol = p.1 :=
      select_for_symbol_symbol ctx p.1 p.2 s (hok.2 p hp) hsel
    have hp1 : p.1 = sym := by rw [← hsym, hcon]
    have hmem2 : (sym, p.2) ∈ by_symbol_build ctx signals [] := by
      rw [← hp1]
      exact hp
    have hfind2 : alist_find sym (by_symbol_build ctx signals []) =
        some p.2 := alist_find_of_mem sym p.2 _ hmem2 hok.1
    have hpe : p.2 = e := by
      rw [hfind2] at hfind
      exact Option.some.inj hfind
    have hres : resolve_entry ctx.cfg p.2 = none := by
      rw [hpe]
      unfold resolve_entry
      rw [if_pos ⟨hb, hs⟩, if_neg (not_le.mpr hlt1), if_neg (not_le.mpr hlt2)]
    unfold select_for_symbol at hsel
    rw [hres] at hsel
    exact Option.noConfusion hsel
  · intro cfg e hb hs hge
    unfold resolve_entry
    rw [if_pos ⟨hb, hs⟩, if_pos hge]
  · intro cfg e hb hs hr hge
    have hlt : ¬(e.sell_strength * cfg.conflict_strength_ratio ≤
        e.buy_strength) := by
      intro hle
      have h1 : e.buy_strength * cfg.conflict_strength_ratio *
          cfg.conflict_strength_ratio ≤
          e.sell_strength * cfg.conflict_strength_ratio :=
        mul_le_mul_of_nonneg_right hge (le_of_lt (lt_trans zero_lt_one hr))
      have h2 : e.buy_strength * cfg.conflict_strength_ratio *
          cfg.conflict_strength_ratio ≤ e.buy_strength := le_trans h1 hle
      nlinarith [h2, hb, hr]
    unfold resolve_entry
    rw [if_pos ⟨hb, hs⟩, if_neg hlt, if_pos hge]
  · intro ctx s e b hbuy happ
    unfold apply_signal at happ
    rw [if_pos hbuy] at happ
    simp only [Option.some.injEq] at happ
    cases hbest : e.best_buy with
    | none =>
      rw [hbest] at happ
      simp only [] at happ
      rw [← happ]
      exact ⟨le_refl _, fun b0 h0 => Option.noConfusion h0⟩
    | some b0 =>
      rw [hbest] at happ
      simp only [] at happ
      by_cases hc : b0.confidence < s.confidence
      · rw [if_pos hc] at happ
        rw [← happ]
        refine ⟨le_refl _, fun b1 h1 => ?_⟩
        rw [← Option.some.inj h1]
        exact le_of_lt hc
      · rw [if_neg hc] at happ
        rw [← happ]
        refine ⟨not_lt.mp hc, fun b1 h1 => ?_⟩
        rw [← Option.some.inj h1]
  · intro ctx s e b hsell happ
    unfold apply_signal at happ
    rw [if_neg (by simp [hsell])] at happ
    simp only [Option.some.injEq] at happ
    cases hbest : e.best_sell with
    | none =>
      rw [hbest] at happ
      simp only [] at happ
      rw [← happ]
      exact ⟨le_refl _, fun b0 h0 => Option.noConfusion h0⟩
    | some b0 =>
      rw [hbest] at happ
      simp only [] at happ
      by_cases hc : b0.confidence < s.confidence
      · rw [if_pos hc] at happ
        rw [← happ]
        refine ⟨le_refl _, fun b1 h1 => ?_⟩
        rw [← Option.some.inj h1]
        exact le_of_lt hc
      · rw [if_neg hc] at happ
        rw [← happ]
        refine ⟨not_lt.mp hc, fun b1 h1 => ?_⟩
        rw [← Option.some.inj h1]
  · norm_num [consolidate_signals, by_symbol_build, upsert_entry,
      apply_signal, strategy_weight, passes_cooldown, select_for_symbol,
      resolve_entry, passes_position_rules, alist_find, ctxDefault,
      defaultSettings, sigBuyScenA, sigSellScenA, List.filterMap]
    simp
    norm_num [sigBuyScenA]
    simp [List.mergeSort_singleton]

/-- Witness for C4: BUY 0.72 vs SELL 0.69 on ADA-USD at ratio 1.35 is an
unresolved conflict, so the BUY does not survive consolidation; and a SELL
side of strength 0.8 against a BUY side of 0.5 at ratio 1.35 resolves to the
tracked best SELL. -/
theorem consolidation_conflict_and_dominance_witness :
    sigConfBuy ∉ consolidate_signals ctxDefault [sigConfBuy, sigConfSell] ∧
      resolve_entry defaultSettings
        { buy_strength := 1 / 2, sell_strength := 8 / 10,
          best_buy := some sigConfBuy, best_sell := some sigConfSell } =
        some sigConfSell :=
  ⟨fun hmem =>
    consolidation_conflict_and_dominance.1 ctxDefault
      [sigConfBuy, sigConfSell] "ADA-USD"
      { buy_strength := 72 / 100, sell_strength := 69 / 100,
        best_buy := some sigConfBuy, best_sell := some sigConfSell }
      (by norm_num [by_symbol_build, upsert_entry, apply_signal,
          strategy_weight, passes_cooldown, alist_find, ctxDefault,
          defaultSettings, sigConfBuy, sigConfSell]; simp)
      (by norm_num) (by norm_num) (by norm_num [ctxDefault, defaultSettings])
      (by norm_num [ctxDefault, defaultSettings]) sigConfBuy hmem rfl,
    (consolidation_conflict_and_dominance.2.2.1 defaultSettings
      { buy_strength := 1 / 2, sell_strength := 8 / 10,
        best_buy := some sigConfBuy, best_sell := some sigConfSell }
      (by norm_num) (by norm_num) (by norm_num [defaultSettings])
      (by norm_num [defaultSettings])).trans rfl⟩
